import Mathlib

/-!
Verification development for the SchoolSchedule repository.

The embedding covers:
* the Gregorian calendar arithmetic used through Python `datetime` /
  `timedelta` (dates, day addition, `%d %b` and `%W` formatting);
* the status registry `STATUS_DEFINITIONS` and the code-to-symbol
  conversion `convert_codes_to_symbols` of `PickupSechdule2.py`;
* the date helper `get_week_dates` and the two renderers
  `create_schedule_table_text` / `generate_schedule_table_html`
  of `PickupSechdule2.py` (made explicit functions of the store they
  read from the module-level `SCHEDULE_DATA`);
* the Flask handlers `index` (POST branch), `add_week`, `remove_week`
  of `app.py`, with the form modelled as a partial map from field
  names to string values and the stderr/save side effects made
  explicit in the return values;
* the persistence layer (`save_schedule` / the loader), which is
  imported by `app.py` but absent from the source tree, modelled from
  the spec's persisted-state layout.
-/

/-! ### Calendar model (Python `datetime` / `timedelta`) -/

/-- A Gregorian calendar date, as held by Python `datetime` objects
(`year-month-day`, time-of-day unused by this program). -/
structure Date where
  year : Nat
  month : Nat
  day : Nat
deriving DecidableEq, Repr

/-- Gregorian leap-year rule. -/
def Date.isLeap (y : Nat) : Bool :=
  y % 4 == 0 && (y % 100 != 0 || y % 400 == 0)

/-- Number of days in a month of a given year. -/
def Date.daysInMonth (y m : Nat) : Nat :=
  if m == 2 then (if Date.isLeap y then 29 else 28)
  else if m == 4 || m == 6 || m == 9 || m == 11 then 30
  else 31

/-- The calendar day after `d`. -/
def Date.next (d : Date) : Date :=
  if d.day < Date.daysInMonth d.year d.month then
    { d with day := d.day + 1 }
  else if d.month < 12 then
    { year := d.year, month := d.month + 1, day := 1 }
  else
    { year := d.year + 1, month := 1, day := 1 }

/-- `d + timedelta(days := n)` for `n ≥ 0`. -/
def Date.addDays (d : Date) : Nat → Date
  | 0 => d
  | n + 1 => (Date.addDays d n).next

/-- Days of the year that precede month `m` (1-based). -/
def Date.daysBeforeMonth (y m : Nat) : Nat :=
  (List.range m).foldl (fun acc k => if 1 ≤ k then acc + Date.daysInMonth y k else acc) 0

/-- One-based ordinal of the day within its year (`datetime.timetuple().tm_yday`). -/
def Date.dayOfYear (d : Date) : Nat :=
  Date.daysBeforeMonth d.year d.month + d.day

/-- Rata-die day number (proleptic Gregorian, `0001-01-01` is day 1).
Day 1 is a Monday. -/
def Date.rataDie (d : Date) : Nat :=
  365 * (d.year - 1) + (d.year - 1) / 4 - (d.year - 1) / 100 + (d.year - 1) / 400
    + Date.dayOfYear d

/-- Weekday with Monday = 0 (Python `datetime.weekday()`). -/
def Date.weekdayMon (d : Date) : Nat :=
  (Date.rataDie d - 1) % 7

/-- Week-of-year number with Monday as first weekday, days before the
first Monday belonging to week 0 (Python `strftime("%W")`): the C-library
formula `(tm_yday + 7 - weekday) / 7`, where `tm_yday` counts from 0
while `Date.dayOfYear` counts from 1. -/
def Date.weekW (d : Date) : Nat :=
  (Date.dayOfYear d - 1 + 7 - Date.weekdayMon d) / 7

/-- Abbreviated English month name (`strftime("%b")`, C locale). -/
def monthAbbrev (m : Nat) : String :=
  match m with
  | 1 => "Jan" | 2 => "Feb" | 3 => "Mar" | 4 => "Apr"
  | 5 => "May" | 6 => "Jun" | 7 => "Jul" | 8 => "Aug"
  | 9 => "Sep" | 10 => "Oct" | 11 => "Nov" | _ => "Dec"

/-- Decimal digit character for `n % 10`. -/
def digitChar (n : Nat) : Char := Char.ofNat (48 + n % 10)

/-- Two-digit zero-padded decimal rendering (as used by `%d` and `%W`). -/
def pad2 (n : Nat) : String :=
  String.mk [digitChar (n / 10), digitChar n]

/-- `strftime("%d %b")`: zero-padded day of month, space, short month name. -/
def Date.fmtDayMonth (d : Date) : String :=
  pad2 d.day ++ " " ++ monthAbbrev d.month

/-- Week caption `f"Week {week_start_date.strftime('%W')}"`. -/
def Date.weekLabel (d : Date) : String :=
  "Week " ++ pad2 (Date.weekW d)


/-! ### Configuration of `PickupSechdule2.py` -/

/-- `START_DATE = datetime(2025, 5, 12)`. -/
def START_DATE : Date := ⟨2025, 5, 12⟩

/-- `DAYS = ["Monday", ..., "Friday"]`. -/
def DAYS : List String := ["Monday", "Tuesday", "Wednesday", "Thursday", "Friday"]

/-- `NUM_DAYS = len(DAYS)`. -/
def NUM_DAYS : Nat := DAYS.length

/-- Status code constants of `PickupSechdule2.py`. -/
def TICK : Int := 1

def CROSS : Int := 0

def COMPLICATED : Int := 2

def TRAVEL : Int := 3

def OFFICE : Int := 4

def HOLIDAY : Int := 5

def UNKNOWN : Int := 6

/-- One entry of `STATUS_DEFINITIONS`: description, plain-text glyph, HTML fragment. -/
structure StatusDef where
  desc : String
  text : String
  html : String
deriving DecidableEq, Repr

/-- `STATUS_DEFINITIONS`, as an association list in the dict's insertion
order (keys `1, 0, 2, 3, 4, 5, 6`). -/
def STATUS_DEFINITIONS : List (Int × StatusDef) :=
  [ (TICK, ⟨"Available", "✓",
      "<span class=\x27status-tick\x27 title=\x27Available\x27>&#10003;</span>"⟩),
    (CROSS, ⟨"Unavailable", "✗",
      "<span class=\x27status-cross\x27 title=\x27Unavailable\x27>&#10007;</span>"⟩),
    (COMPLICATED, ⟨"Complicated Drop-off", "⚠",
      "<span class=\x27status-complicated\x27 title=\x27Complicated Drop-off\x27>&#9888;</span>"⟩),
    (TRAVEL, ⟨"Travel", "✈",
      "<span class=\x27status-travel\x27 title=\x27Travel\x27>&#9992;</span>"⟩),
    (OFFICE, ⟨"Office", "💼",
      "<span class=\x27status-office\x27 title=\x27Office\x27>&#128188;</span>"⟩),
    (HOLIDAY, ⟨"Holiday/No School", "☀",
      "<span class=\x27status-holiday\x27 title=\x27Holiday/No School\x27>&#9728;</span>"⟩),
    (UNKNOWN, ⟨"Unknown / TBD", "?",
      "<span class=\x27status-unknown\x27 title=\x27Unknown / TBD\x27>?</span>"⟩) ]

/-- `DEFAULT_STATUS_CODE = HOLIDAY`. -/
def DEFAULT_STATUS_CODE : Int := HOLIDAY

/-- Python dict lookup `STATUS_DEFINITIONS.get(code)`. -/
def lookupStatus (code : Int) : Option StatusDef :=
  (STATUS_DEFINITIONS.find? (fun p => p.1 == code)).map (·.2)

/-- `definition.get(format_type, fallback)` on a full status entry: both
keys exist, so the format selects the text or the HTML field. -/
def StatusDef.get (d : StatusDef) (format_type : String) : String :=
  if format_type == "text" then d.text else d.html

/-- The fallback symbol computed at the head of `convert_codes_to_symbols`:
the `DEFAULT_STATUS_CODE` entry's field for the format, or `"?"` if the
default code were missing from the registry. -/
def defaultSymbol (format_type : String) : String :=
  match lookupStatus DEFAULT_STATUS_CODE with
  | some d => d.get format_type
  | none => "?"

/-- Diagnostic line printed to `stderr` for a code missing from the registry. -/
def warnMsg (code : Int) : String :=
  "Warning: Unknown status code " ++ toString code ++ " encountered."

/-- The body of the `for code in codes` loop of `convert_codes_to_symbols`:
returns the accumulated symbol list together with the diagnostics the loop
prints to `stderr`, in emission order. -/
def convertLoop (format_type : String) : List Int → List String × List String
  | [] => ([], [])
  | code :: rest =>
    let tail := convertLoop format_type rest
    match lookupStatus code with
    | some d => (d.get format_type :: tail.1, tail.2)
    | none => (defaultSymbol format_type :: tail.1, warnMsg code :: tail.2)

/-- `convert_codes_to_symbols(codes, format_type)`: raises `ValueError`
(modelled as `.error`) for a format other than `'text'`/`'html'`, otherwise
returns the symbols plus the `stderr` diagnostics. -/
def convert_codes_to_symbols (codes : List Int) (format_type : String) :
    Except String (List String × List String) :=
  if format_type ≠ "text" ∧ format_type ≠ "html" then
    .error "format_type must be \x27text\x27 or \x27html\x27"
  else
    .ok (convertLoop format_type codes)

/-- Per-code symbol: the registry entry's field for the format, or the
default symbol on a registry miss. -/
def symbolFor (format_type : String) (code : Int) : String :=
  match lookupStatus code with
  | some d => d.get format_type
  | none => defaultSymbol format_type

/-- Diagnostics emitted for a code list: one warning per registry miss. -/
def warningsFor (codes : List Int) : List String :=
  codes.filterMap (fun code =>
    match lookupStatus code with
    | some _ => none
    | none => some (warnMsg code))

/-- `get_week_dates(start_date)`: the `%d %b` labels of the `NUM_DAYS`
consecutive calendar days starting at `start_date`. -/
def get_week_dates (start_date : Date) : List String :=
  (List.range NUM_DAYS).map (fun i => Date.fmtDayMonth (Date.addDays start_date i))


/-! ### Schedule store of `PickupSechdule2.py` (single-code-per-slot variant) -/

/-- One week's record as held in `SCHEDULE_DATA` of `PickupSechdule2.py`:
a start date and one status code per weekday for each pickup slot. -/
structure SchedWeek where
  week_start : Date
  pick_up_1 : List Int
  pick_up_2 : List Int
deriving DecidableEq, Repr

/-- The module-level `SCHEDULE_DATA` literal of `PickupSechdule2.py`. -/
def SCHEDULE_DATA : List SchedWeek :=
  [ ⟨Date.addDays START_DATE (7 * 0),
      [TICK, TICK, TICK, TICK, OFFICE],
      [TICK, TICK, OFFICE, UNKNOWN, TICK]⟩,
    ⟨Date.addDays START_DATE (7 * 1),
      [TICK, TRAVEL, OFFICE, TICK, OFFICE],
      [TRAVEL, TRAVEL, OFFICE, TICK, TICK]⟩,
    ⟨Date.addDays START_DATE (7 * 2),
      [TICK, TICK, TICK, HOLIDAY, HOLIDAY],
      [TICK, TRAVEL, OFFICE, HOLIDAY, HOLIDAY]⟩,
    ⟨Date.addDays START_DATE (7 * 3),
      [OFFICE, TICK, TICK, TICK, TICK],
      [TICK, OFFICE, TICK, TICK, UNKNOWN]⟩,
    ⟨Date.addDays START_DATE (7 * 4),
      [HOLIDAY, TICK, TICK, HOLIDAY, HOLIDAY],
      [HOLIDAY, COMPLICATED, HOLIDAY, OFFICE, TICK]⟩,
    ⟨Date.addDays START_DATE (7 * 5),
      [TICK, TICK, TICK, TICK, HOLIDAY],
      [TICK, TICK, OFFICE, TICK, HOLIDAY]⟩ ]

/-! ### Text renderer `create_schedule_table_text` -/

/-- A `PrettyTable` as this program uses it: column headers plus rows. -/
structure TextTable where
  field_names : List String
  rows : List (List String)
deriving DecidableEq, Repr

/-- The cosmetic divider row added between weeks. -/
def dividerRow : List String :=
  String.mk (List.replicate 14 '-') ::
    DAYS.map (fun d => String.mk (List.replicate (d.length + 2) '-'))

/-- The week caption row: `["Week NN", date labels...]`. -/
def weekHeaderRow (w : SchedWeek) : List String :=
  Date.weekLabel w.week_start :: get_week_dates w.week_start

/-- The `"Pick AM"` row of a week. -/
def amRow (w : SchedWeek) : List String :=
  "Pick AM" :: (convertLoop "text" w.pick_up_1).1

/-- The `"Pick PM"` row of a week. -/
def pmRow (w : SchedWeek) : List String :=
  "Pick PM" :: (convertLoop "text" w.pick_up_2).1

/-- One iteration of the `for week_data in SCHEDULE_DATA` loop: add the
divider when rows already exist (`table.rowcount > 0`), then the three
rows of the week. -/
def addWeekRows (rows : List (List String)) (w : SchedWeek) : List (List String) :=
  rows ++ (if rows.length > 0 then [dividerRow] else [])
       ++ [weekHeaderRow w, amRow w, pmRow w]

/-- `create_schedule_table_text()`, as a function of the store it reads
from the module-level `SCHEDULE_DATA`. -/
def create_schedule_table_text (store : List SchedWeek) : TextTable :=
  { field_names := "Week / Pick Up" :: DAYS,
    rows := store.foldl addWeekRows [] }


/-! ### HTML renderer `generate_schedule_table_html` -/

/-- The fixed inline stylesheet string `html_style`. -/
def html_style : String :=
  "\n<style>\n    body \x7b font-family: Arial, sans-serif; \x7d\n    table \x7b border-collapse: collapse; width: 100%; text-align: center; border: 1px solid #ccc; margin-bottom: 20px; \x7d\n    th \x7b background-color: #d9ead3; padding: 10px; border: 1px solid #ccc; \x7d\n    td \x7b padding: 8px; border: 1px solid #ccc; \x7d\n    tr.date-row \x7b background-color: #cfe2f3; font-weight: bold; \x7d\n    tr.pickup-row-am \x7b background-color: #f7f7f7; \x7d /* Light alternating bg */\n    tr.pickup-row-pm \x7b background-color: #ffffff; \x7d\n    td.label-cell \x7b font-weight: bold; text-align: left; padding-left: 15px;\x7d\n    .status-tick \x7b color: green; font-weight: bold; \x7d\n    .status-cross \x7b color: red; font-weight: bold; \x7d\n    .status-complicated \x7b color: orange; font-weight: bold; \x7d\n    .status-travel \x7b color: blue; font-style: italic; \x7d\n    .status-office \x7b color: gray; \x7d\n    .status-holiday \x7b color: #DAA520; \x7d /* gold */\n    .status-unknown \x7b color: purple; font-weight: bold; \x7d /* Style for Question Mark */\n    ul.legend \x7b list-style: none; padding: 0; \x7d\n    ul.legend li \x7b margin-bottom: 5px; \x7d\n    ul.legend span \x7b display: inline-block; min-width: 20px; text-align: center; margin-right: 10px;\x7d\n</style>\n"

/-- Python `sorted` on the `(code, definition)` pairs: insertion sort,
ascending by status code (the keys are distinct). -/
def insertByCode (p : Int × StatusDef) : List (Int × StatusDef) → List (Int × StatusDef)
  | [] => [p]
  | q :: rest => if p.1 ≤ q.1 then p :: q :: rest else q :: insertByCode p rest

/-- Python `sorted(iterable)` by ascending first component. -/
def sortByCode : List (Int × StatusDef) → List (Int × StatusDef)
  | [] => []
  | p :: rest => insertByCode p (sortByCode rest)

/-- `sorted_status_items = sorted(STATUS_DEFINITIONS.items())`. -/
def sorted_status_items : List (Int × StatusDef) :=
  sortByCode STATUS_DEFINITIONS

/-- One legend entry: `f"<li>{details['html']} : {details['desc']}</li>"`. -/
def legendItem (p : Int × StatusDef) : String :=
  "<li>" ++ p.2.html ++ " : " ++ p.2.desc ++ "</li>"

/-- The legend list items, in the order the legend loop emits them. -/
def legend_items : List String :=
  sorted_status_items.map legendItem

/-- The three `<tr>` elements emitted for one week of the HTML table body. -/
def htmlWeekRows (w : SchedWeek) : String :=
  "<tr class=\x27date-row\x27><td class=\x27label-cell\x27>" ++ Date.weekLabel w.week_start
    ++ "</td>"
    ++ String.join ((get_week_dates w.week_start).map (fun date => "<td>" ++ date ++ "</td>"))
    ++ "</tr>"
    ++ "<tr class=\x27pickup-row-am\x27><td class=\x27label-cell\x27>Pick AM</td>"
    ++ String.join ((convertLoop "html" w.pick_up_1).1.map (fun s => "<td>" ++ s ++ "</td>"))
    ++ "</tr>"
    ++ "<tr class=\x27pickup-row-pm\x27><td class=\x27label-cell\x27>Pick PM</td>"
    ++ String.join ((convertLoop "html" w.pick_up_2).1.map (fun s => "<td>" ++ s ++ "</td>"))
    ++ "</tr>"

/-- The `html_body` string built by `generate_schedule_table_html`. -/
def htmlBody (store : List SchedWeek) : String :=
  "<table border=\x271\x27>"
    ++ "<thead><tr><th>Week / Pick Up</th>"
    ++ String.join (DAYS.map (fun day => "<th>" ++ day ++ "</th>"))
    ++ "</tr></thead><tbody>"
    ++ String.join (store.map htmlWeekRows)
    ++ "</tbody></table>"
    ++ "<h2>Legend</h2><ul class=\x27legend\x27>"
    ++ String.join legend_items
    ++ "</ul>"

/-- `generate_schedule_table_html()`, as a function of the store it reads
from the module-level `SCHEDULE_DATA`. -/
def generate_schedule_table_html (store : List SchedWeek) : String :=
  "<!DOCTYPE html>\n<html lang=\"en\">\n<head>\n    <meta charset=\"UTF-8\">\n    <meta name=\"viewport\" content=\"width=device-width, initial-scale=1.0\">\n    <title>Pickup Schedule</title>\n    "
    ++ html_style
    ++ "\n</head>\n<body>\n    <h1>Pickup Schedule</h1>\n    "
    ++ htmlBody store
    ++ "\n</body>\n</html>"


/-! ### The web application `app.py` (paired-guardian slot variant)

The handlers mutate the module-level store and call `save_schedule`; they
are embedded as functions returning the new store together with the
number of saves triggered. The form body is a partial map from field
names to submitted string values (`request.form.get`), and `int(value)`
is abstracted by an arbitrary parser `toInt : String → Option Int`
(`none` models `ValueError`). -/

/-- One week's record as `app.py` manipulates it: each weekday slot holds
a list of codes indexed by guardian (`('m', 0)` / `('f', 1)`). -/
structure AppWeek where
  week_start : Date
  pick_up_1 : List (List Int)
  pick_up_2 : List (List Int)
deriving DecidableEq, Repr

/-- The form field name `f'w{w}_{key}_{role}{d}'`. -/
def fieldName (w : Nat) (key : String) (role : String) (d : Nat) : String :=
  "w" ++ toString w ++ "_" ++ key ++ "_" ++ role ++ toString d

/-- One innermost iteration of the POST loop of `index`: look the field up
in the form, parse it, and perform `week[key][d][idx] = int(value)`;
`ValueError` and `IndexError` leave the slots unchanged (`pass`). -/
def tryField (toInt : String → Option Int) (form : String → Option String)
    (w : Nat) (key : String) (role : String) (d idx : Nat)
    (slots : List (List Int)) : List (List Int) :=
  match form (fieldName w key role d) with
  | none => slots
  | some value =>
    match toInt value with
    | none => slots
    | some n =>
      match slots[d]? with
      | none => slots
      | some cell =>
        if idx < cell.length then slots.set d (cell.set idx n) else slots

/-- The `for role, idx in [('m', 0), ('f', 1)]` loop for one day. -/
def dayUpdate (toInt : String → Option Int) (form : String → Option String)
    (w : Nat) (key : String) (d : Nat) (slots : List (List Int)) : List (List Int) :=
  tryField toInt form w key "f" d 1 (tryField toInt form w key "m" d 0 slots)

/-- The `for d in range(len(DAYS))` loop for one slot key. -/
def updateSlots (toInt : String → Option Int) (form : String → Option String)
    (w : Nat) (key : String) (slots : List (List Int)) : List (List Int) :=
  (List.range NUM_DAYS).foldl (fun s d => dayUpdate toInt form w key d s) slots

/-- The update of one week by the POST loop: `key` iterates over
`['pick_up_1', 'pick_up_2']`. -/
def processWeek (toInt : String → Option Int) (form : String → Option String)
    (w : Nat) (week : AppWeek) : AppWeek :=
  { week_start := week.week_start,
    pick_up_1 := updateSlots toInt form w "pick_up_1" week.pick_up_1,
    pick_up_2 := updateSlots toInt form w "pick_up_2" week.pick_up_2 }

/-- The `for w, week in enumerate(SCHEDULE_DATA)` loop: week `w` carries
its enumeration index into the form field names. -/
def postLoop (toInt : String → Option Int) (form : String → Option String)
    (w : Nat) : List AppWeek → List AppWeek
  | [] => []
  | week :: rest => processWeek toInt form w week :: postLoop toInt form (w + 1) rest

/-- The POST branch of the `index` route: update every week in place from
the form, then call `save_schedule(SCHEDULE_DATA)` once. Returns the new
store and the number of saves triggered. -/
def index_post (toInt : String → Option Int) (form : String → Option String)
    (store : List AppWeek) : List AppWeek × Nat :=
  (postLoop toInt form 0 store, 1)

/-- The `/add_week` route: append one defaulted week (start date 7 days
after the last week's, or after `START_DATE` when the store is empty)
and save. -/
def add_week (store : List AppWeek) : List AppWeek × Nat :=
  let last_start := match store.getLast? with
    | some w => w.week_start
    | none => START_DATE
  let new_week : AppWeek :=
    { week_start := Date.addDays last_start 7,
      pick_up_1 := List.replicate NUM_DAYS [DEFAULT_STATUS_CODE, DEFAULT_STATUS_CODE],
      pick_up_2 := List.replicate NUM_DAYS [DEFAULT_STATUS_CODE, DEFAULT_STATUS_CODE] }
  (store ++ [new_week], 1)

/-- The `/remove_week/<int:index>` route: pop the record at `index` and
save when the index is in range, otherwise leave the store untouched. -/
def remove_week (store : List AppWeek) (index : Int) : List AppWeek × Nat :=
  if 0 ≤ index ∧ index < store.length then
    (store.eraseIdx index.toNat, 1)
  else
    (store, 0)

/-! ### Persistence (modelled from the spec)

`app.py` imports `save_schedule` from `PickupSechdule2`, but the source
tree's `PickupSechdule2.py` does not define it: the persistence layer is
code of this repository that is missing from `src/`. It is modelled here
from the spec's persisted-state layout: a JSON array with one object per
week, `week_start` an ISO `"YYYY-MM-DD"` string and the two slot lists
holding the per-day guardian-code arrays. -/

/-- The persisted JSON document tree. -/
inductive PJson where
  | num : Int → PJson
  | str : String → PJson
  | arr : List PJson → PJson
  | obj : List (String × PJson) → PJson
deriving Repr

/-- ISO `"YYYY-MM-DD"` character sequence of a date (years up to 9999). -/
def isoChars (d : Date) : List Char :=
  [digitChar (d.year / 1000), digitChar (d.year / 100),
   digitChar (d.year / 10), digitChar d.year, '-',
   digitChar (d.month / 10), digitChar d.month, '-',
   digitChar (d.day / 10), digitChar d.day]

/-- Decimal value of a digit character. -/
def charToDigit (c : Char) : Option Nat :=
  if 48 ≤ c.toNat ∧ c.toNat ≤ 57 then some (c.toNat - 48) else none

/-- Parse an ISO `"YYYY-MM-DD"` character sequence back into a date. -/
def parseIsoChars (cs : List Char) : Option Date :=
  match cs with
  | [y1, y2, y3, y4, '-', m1, m2, '-', d1, d2] =>
    match charToDigit y1, charToDigit y2, charToDigit y3, charToDigit y4,
        charToDigit m1, charToDigit m2, charToDigit d1, charToDigit d2 with
    | some a, some b, some c, some d, some e, some f, some g, some h =>
      some ⟨1000 * a + 100 * b + 10 * c + d, 10 * e + f, 10 * g + h⟩
    | _, _, _, _, _, _, _, _ => none
  | _ => none

/-- Modelled from the spec: serialization of one week to its persisted
object `{"week_start": "YYYY-MM-DD", "pick_up_1": [...], "pick_up_2": [...]}`. -/
def weekToJson (w : AppWeek) : PJson :=
  .obj [("week_start", .str (String.mk (isoChars w.week_start))),
        ("pick_up_1", .arr (w.pick_up_1.map (fun cell => .arr (cell.map PJson.num)))),
        ("pick_up_2", .arr (w.pick_up_2.map (fun cell => .arr (cell.map PJson.num))))]

/-- Modelled from the spec: `save_schedule` serializes the entire store to
the persisted JSON array, one element per week. -/
def save_schedule (store : List AppWeek) : PJson :=
  .arr (store.map weekToJson)

/-- Parse one persisted per-day entry (an array of guardian codes). -/
def jsonToCell : PJson → Option (List Int)
  | .arr xs => xs.mapM (fun j => match j with | .num n => some n | _ => none)
  | _ => none

/-- Parse one persisted slot sequence. -/
def jsonToSlots : PJson → Option (List (List Int))
  | .arr xs => xs.mapM jsonToCell
  | _ => none

/-- Modelled from the spec: deserialization of one persisted week object. -/
def jsonToWeek : PJson → Option AppWeek
  | .obj [("week_start", .str s), ("pick_up_1", p1), ("pick_up_2", p2)] =>
    match parseIsoChars s.data, jsonToSlots p1, jsonToSlots p2 with
    | some d, some s1, some s2 => some ⟨d, s1, s2⟩
    | _, _, _ => none
  | _ => none

/-- Modelled from the spec: the loader deserializes the persisted array
back into the in-memory store. -/
def load_schedule : PJson → Option (List AppWeek)
  | .arr xs => xs.mapM jsonToWeek
  | _ => none

/-- Dates representable in the persisted `"YYYY-MM-DD"` form. -/
def Date.valid (d : Date) : Prop :=
  1 ≤ d.year ∧ d.year ≤ 9999 ∧ 1 ≤ d.month ∧ d.month ≤ 12 ∧
    1 ≤ d.day ∧ d.day ≤ Date.daysInMonth d.year d.month

instance (d : Date) : Decidable d.valid := by
  unfold Date.valid
  infer_instance

/-- Well-formed store: representable start dates and five-day slot sequences. -/
def WellFormedStore (store : List AppWeek) : Prop :=
  ∀ w ∈ store, w.week_start.valid ∧
    w.pick_up_1.length = NUM_DAYS ∧ w.pick_up_2.length = NUM_DAYS

instance (store : List AppWeek) : Decidable (WellFormedStore store) := by
  unfold WellFormedStore
  infer_instance

/-! ### Per-field update policy (specification side of the POST handler)

`cellApply` restates, cell-locally, the parse-or-skip policy of one form
field: a field absent from the submission leaves its cell alone; a value
that fails integer parsing is silently skipped; a guardian index outside
the stored cell is silently ignored; otherwise the field overwrites
exactly its addressed entry. -/

/-- Effect of the single form field `(w, key, role, d, idx)` on the cell
it addresses. -/
def cellApply (toInt : String → Option Int) (form : String → Option String)
    (w : Nat) (key role : String) (d idx : Nat) (cell : List Int) : List Int :=
  match form (fieldName w key role d) with
  | none => cell
  | some value =>
    match toInt value with
    | none => cell
    | some n => if idx < cell.length then cell.set idx n else cell

/-- Combined effect of the two guardian fields (`m` then `f`) of one day
on that day's cell. -/
def dayApply (toInt : String → Option Int) (form : String → Option String)
    (w : Nat) (key : String) (d : Nat) (cell : List Int) : List Int :=
  cellApply toInt form w key "f" d 1 (cellApply toInt form w key "m" d 0 cell)

/-- The four table rows a non-first week contributes in the text renderer:
divider, week caption, AM row, PM row. -/
def weekChunk (w : SchedWeek) : List (List String) :=
  [dividerRow, weekHeaderRow w, amRow w, pmRow w]

/-! ### Helper lemmas -/

lemma convertLoop_eq (format_type : String) (codes : List Int) :
    convertLoop format_type codes =
      (codes.map (symbolFor format_type), warningsFor codes) := by
  induction codes with
  | nil => rfl
  | cons code rest ih =>
    simp only [convertLoop, ih, symbolFor, warningsFor, List.map_cons, List.filterMap_cons]
    cases h : lookupStatus code <;> simp [h, warningsFor]

lemma convert_ok (codes : List Int) (format_type : String)
    (hf : format_type = "text" ∨ format_type = "html") :
    convert_codes_to_symbols codes format_type =
      .ok (codes.map (symbolFor format_type), warningsFor codes) := by
  unfold convert_codes_to_symbols
  rw [if_neg, convertLoop_eq]
  rcases hf with h | h <;> simp [h]

/-- C3: a status code absent from the registry is rendered, at each of its
positions, as the DefaultCode's symbol for the requested format, one
diagnostic is emitted to the error channel, and the call returns normally
(no exception) for both formats. -/
theorem convert_unknown_code_defaults
    (c : Int) (hc : lookupStatus c = none)
    (format_type : String) (hf : format_type = "text" ∨ format_type = "html")
    (codes : List Int) (i : Nat) (hi : codes[i]? = some c) :
    ∃ out, convert_codes_to_symbols codes format_type = .ok out ∧
      out.1[i]? = some (defaultSymbol format_type) ∧
      warnMsg c ∈ out.2 := by
  refine ⟨(codes.map (symbolFor format_type), warningsFor codes), convert_ok codes format_type hf, ?_, ?_⟩
  · simp [List.getElem?_map, hi, symbolFor, hc]
  · have hmem : c ∈ codes := by
      rcases List.getElem?_eq_some.mp hi with ⟨h, e⟩
      exact e ▸ List.getElem_mem h
    exact List.mem_filterMap.mpr ⟨c, hmem, by simp [hc]⟩

/-- C3 witness: code 99 is not in the registry; in a text rendering it is
shown as the default (Holiday) glyph and one warning is emitted. -/
theorem convert_unknown_code_defaults_witness :
    lookupStatus 99 = none ∧
    ∃ out, convert_codes_to_symbols [99] "text" = .ok out ∧
      out.1[0]? = some (defaultSymbol "text") ∧
      warnMsg 99 ∈ out.2 :=
  ⟨by decide,
    convert_unknown_code_defaults 99 (by decide) "text" (Or.inl rfl) [99] 0 (by decide)⟩

/-- C10: for either valid format, `convert_codes_to_symbols` returns
normally with exactly one output symbol per input code, the i-th output
depending only on the i-th input code. -/
theorem convert_codes_length_pointwise
    (codes : List Int) (format_type : String)
    (hf : format_type = "text" ∨ format_type = "html") :
    ∃ out, convert_codes_to_symbols codes format_type = .ok out ∧
      out.1 = codes.map (symbolFor format_type) ∧
      out.1.length = codes.length ∧
      ∀ i : Nat, out.1[i]? = (codes[i]?).map (symbolFor format_type) := by
  refine ⟨(codes.map (symbolFor format_type), warningsFor codes),
    convert_ok codes format_type hf, rfl, List.length_map _ _, ?_⟩
  intro i
  exact List.getElem?_map _ _ _

/-- C10 witness: a concrete conversion in HTML format. -/
theorem convert_codes_length_pointwise_witness :
    ∃ out, convert_codes_to_symbols [1, 0, 42] "html" = .ok out ∧
      out.1 = [1, 0, 42].map (symbolFor "html") ∧
      out.1.length = ([1, 0, 42] : List Int).length ∧
      ∀ i : Nat, out.1[i]? = (([1, 0, 42] : List Int)[i]?).map (symbolFor "html") :=
  convert_codes_length_pointwise [1, 0, 42] "html" (Or.inr rfl)

/-- C8: both renderers are pure functions of the store contents — the same
store contents yield byte-identical text-mode and HTML-mode output, with
no dependence on time or randomness. -/
theorem render_deterministic (s t : List SchedWeek) (h : s = t) :
    create_schedule_table_text s = create_schedule_table_text t ∧
    generate_schedule_table_html s = generate_schedule_table_html t := by
  subst h
  exact ⟨rfl, rfl⟩

/-- C8 witness: rendering the module's own `SCHEDULE_DATA` twice gives
identical output in both modes. -/
theorem render_deterministic_witness :
    create_schedule_table_text SCHEDULE_DATA = create_schedule_table_text SCHEDULE_DATA ∧
    generate_schedule_table_html SCHEDULE_DATA = generate_schedule_table_html SCHEDULE_DATA :=
  render_deterministic SCHEDULE_DATA SCHEDULE_DATA rfl

/-- C6: `get_week_dates` returns exactly 5 labels, the i-th being the
`%d %b` rendering of `start + i` days, each successive labelled date one
calendar day after the previous; for 2025-05-12 the labels are
`12 May … 16 May`. -/
theorem get_week_dates_spec (start : Date) :
    (get_week_dates start).length = 5 ∧
    (∀ i, i < 5 → (get_week_dates start)[i]? =
      some (Date.fmtDayMonth (Date.addDays start i))) ∧
    (∀ i, Date.addDays start (i + 1) = (Date.addDays start i).next) ∧
    get_week_dates START_DATE = ["12 May", "13 May", "14 May", "15 May", "16 May"] := by
  refine ⟨rfl, ?_, fun i => rfl, by decide⟩
  intro i hi
  unfold get_week_dates
  rw [List.getElem?_map, show NUM_DAYS = 5 from rfl, List.getElem?_range hi]
  rfl

/-- C6 witness: the concrete claim instance at the configured start date. -/
theorem get_week_dates_spec_witness :
    (get_week_dates START_DATE).length = 5 ∧
    (0 : Nat) < 5 ∧
    (get_week_dates START_DATE)[0]? = some (Date.fmtDayMonth (Date.addDays START_DATE 0)) ∧
    get_week_dates START_DATE = ["12 May", "13 May", "14 May", "15 May", "16 May"] :=
  ⟨(get_week_dates_spec START_DATE).1, by decide,
    (get_week_dates_spec START_DATE).2.1 0 (by decide),
    (get_week_dates_spec START_DATE).2.2.2⟩

/-- C9: the HTML legend holds exactly one list item per registry entry —
as many items as entries, every entry's item present — and the items
follow the status codes in strictly ascending order. -/
theorem legend_items_spec :
    legend_items = sorted_status_items.map legendItem ∧
    legend_items.length = STATUS_DEFINITIONS.length ∧
    (∀ p ∈ STATUS_DEFINITIONS, legendItem p ∈ legend_items) ∧
    List.Chain' (fun p q => p.1 < q.1) sorted_status_items ∧
    sorted_status_items.map Prod.fst = [0, 1, 2, 3, 4, 5, 6] := by
  have hmap : sorted_status_items.map Prod.fst = [0, 1, 2, 3, 4, 5, 6] := by rfl
  refine ⟨rfl, by decide, by decide, ?_, hmap⟩
  have := (List.chain'_map (R := fun a b : Int => a < b) (f := Prod.fst)
    (l := sorted_status_items)).mp
  refine this ?_
  rw [hmap]
  norm_num [List.chain'_cons, List.chain'_singleton]

/-- C4 counterexample: on an empty store, `add_week` computes
`last_start = START_DATE` and still adds `timedelta(days=7)`, so the
appended week starts at the anchor date plus 7 days (2025-05-19), not at
the anchor date (2025-05-12) as the claim states. -/
theorem add_week_empty_start_cex :
    (add_week []).1.map AppWeek.week_start = [Date.addDays START_DATE 7] ∧
    Date.addDays START_DATE 7 = ⟨2025, 5, 19⟩ ∧
    (add_week []).1.map AppWeek.week_start ≠ [START_DATE] := by
  refine ⟨rfl, by decide, by decide⟩

/-- C4 (amended): `add_week` appends exactly one record and triggers one
save; the record's start date is 7 days after the last record's start date
when the store is non-empty, and 7 days after the configured anchor
`START_DATE` when the store is empty; its slot sequences hold `NUM_DAYS`
entries each, every entry defaulted to `[DEFAULT_STATUS_CODE,
DEFAULT_STATUS_CODE]`. -/
theorem add_week_spec (store : List AppWeek) :
    ∃ new, add_week store = (store ++ [new], 1) ∧
      new.week_start =
        Date.addDays (store.getLast?.elim START_DATE AppWeek.week_start) 7 ∧
      new.pick_up_1.length = NUM_DAYS ∧
      new.pick_up_2.length = NUM_DAYS ∧
      (∀ cell ∈ new.pick_up_1, cell = [DEFAULT_STATUS_CODE, DEFAULT_STATUS_CODE]) ∧
      (∀ cell ∈ new.pick_up_2, cell = [DEFAULT_STATUS_CODE, DEFAULT_STATUS_CODE]) := by
  refine ⟨_, rfl, ?_, List.length_replicate _ _, List.length_replicate _ _,
    fun cell h => List.eq_of_mem_replicate h, fun cell h => List.eq_of_mem_replicate h⟩
  cases h : store.getLast? <;> simp [h]

lemma eraseIdx_append_last {α : Type} (l : List α) (a : α) :
    (l ++ [a]).eraseIdx l.length = l := by
  induction l with
  | nil => rfl
  | cons x xs ih => simpa [List.eraseIdx_cons_succ] using ih

/-- C5: appending a week and then removing it at its own index (the former
store length) restores the store exactly; removing at any out-of-range
index (negative or at least the length) leaves the store unchanged. -/
theorem append_then_remove (store : List AppWeek) (i : Int)
    (hi : i < 0 ∨ (store.length : Int) ≤ i) :
    (remove_week (add_week store).1 store.length).1 = store ∧
    (remove_week store i).1 = store := by
  constructor
  · obtain ⟨new, hnew, -⟩ := add_week_spec store
    rw [show (add_week store).1 = store ++ [new] from congrArg Prod.fst hnew]
    unfold remove_week
    rw [if_pos]
    · simp [eraseIdx_append_last]
    · exact ⟨Int.ofNat_nonneg _, by simp⟩
  · unfold remove_week
    rw [if_neg]
    rintro ⟨h0, hlen⟩
    omega

/-- C5 witness: a one-week store with out-of-range index `-1`. -/
theorem append_then_remove_witness :
    ((-1 : Int) < 0 ∨ ((List.length [AppWeek.mk START_DATE [] []] : Nat) : Int) ≤ -1) ∧
    ((remove_week (add_week [AppWeek.mk START_DATE [] []]).1
        (List.length [AppWeek.mk START_DATE [] []])).1 = [AppWeek.mk START_DATE [] []] ∧
      (remove_week [AppWeek.mk START_DATE [] []] (-1)).1 = [AppWeek.mk START_DATE [] []]) :=
  ⟨Or.inl (by decide),
    append_then_remove [AppWeek.mk START_DATE [] []] (-1) (Or.inl (by decide))⟩

lemma charToDigit_digitChar (n : Nat) : charToDigit (digitChar n) = some (n % 10) := by
  have h : n % 10 < 10 := Nat.mod_lt _ (by omega)
  unfold digitChar
  set k := n % 10 with hk
  interval_cases k <;> rfl

lemma daysInMonth_le_31 (y m : Nat) : Date.daysInMonth y m ≤ 31 := by
  unfold Date.daysInMonth
  split
  · split <;> omega
  · split <;> omega

lemma parseIso_isoChars (d : Date) (h : d.valid) :
    parseIsoChars (isoChars d) = some d := by
  obtain ⟨h1, h2, h3, h4, h5, h6⟩ := h
  have h7 : d.day ≤ 31 := le_trans h6 (daysInMonth_le_31 _ _)
  show parseIsoChars
    [digitChar (d.year / 1000), digitChar (d.year / 100),
     digitChar (d.year / 10), digitChar d.year, '-',
     digitChar (d.month / 10), digitChar d.month, '-',
     digitChar (d.day / 10), digitChar d.day] = some d
  simp only [parseIsoChars, charToDigit_digitChar]
  congr 1
  obtain ⟨y, m, dd⟩ := d
  simp only at h2 h4 h7 ⊢
  congr 1 <;> omega

lemma jsonToCell_num (cell : List Int) :
    jsonToCell (.arr (cell.map PJson.num)) = some cell := by
  simp only [jsonToCell]
  induction cell with
  | nil => rfl
  | cons a t ih =>
    rw [List.map_cons, List.mapM_cons, ih]
    rfl

lemma jsonToSlots_roundtrip (slots : List (List Int)) :
    jsonToSlots (.arr (slots.map (fun cell => .arr (cell.map PJson.num)))) = some slots := by
  simp only [jsonToSlots]
  induction slots with
  | nil => rfl
  | cons c rest ih =>
    rw [List.map_cons, List.mapM_cons, jsonToCell_num, ih]
    rfl

lemma jsonToWeek_roundtrip (w : AppWeek) (h : w.week_start.valid) :
    jsonToWeek (weekToJson w) = some w := by
  show jsonToWeek (.obj [("week_start", .str (String.mk (isoChars w.week_start))),
    ("pick_up_1", .arr (w.pick_up_1.map (fun cell => .arr (cell.map PJson.num)))),
    ("pick_up_2", .arr (w.pick_up_2.map (fun cell => .arr (cell.map PJson.num))))]) = some w
  simp only [jsonToWeek]
  rw [parseIso_isoChars _ h, jsonToSlots_roundtrip, jsonToSlots_roundtrip]

/-- C1: serializing a well-formed store to the persisted JSON form and
deserializing it back restores the store exactly — same week count, same
start dates, same slot contents. -/
theorem save_load_roundtrip (store : List AppWeek) (h : WellFormedStore store) :
    load_schedule (save_schedule store) = some store := by
  show load_schedule (.arr (store.map weekToJson)) = some store
  simp only [load_schedule]
  induction store with
  | nil => rfl
  | cons w rest ih =>
    have hw : w.week_start.valid := (h w (by simp)).1
    have hrest : WellFormedStore rest := fun x hx => h x (List.mem_cons_of_mem _ hx)
    simp only [List.map_cons, List.mapM_cons, jsonToWeek_roundtrip w hw, ih hrest]
    rfl

/-- C1 witness: a concrete one-week well-formed store round-trips. -/
theorem save_load_roundtrip_witness :
    WellFormedStore [AppWeek.mk START_DATE
      [[1, 1], [1, 1], [1, 1], [1, 1], [0, 0]]
      [[0, 0], [1, 1], [1, 1], [1, 1], [1, 1]]] ∧
    load_schedule (save_schedule [AppWeek.mk START_DATE
      [[1, 1], [1, 1], [1, 1], [1, 1], [0, 0]]
      [[0, 0], [1, 1], [1, 1], [1, 1], [1, 1]]]) =
      some [AppWeek.mk START_DATE
        [[1, 1], [1, 1], [1, 1], [1, 1], [0, 0]]
        [[0, 0], [1, 1], [1, 1], [1, 1], [1, 1]]] :=
  ⟨by decide, save_load_roundtrip _ (by decide)⟩

lemma tryField_getElem (toInt : String → Option Int) (form : String → Option String)
    (w : Nat) (key role : String) (d idx : Nat) (slots : List (List Int)) (j : Nat) :
    (tryField toInt form w key role d idx slots)[j]? =
      if j = d then (slots[d]?).map (cellApply toInt form w key role d idx)
      else slots[j]? := by
  unfold tryField cellApply
  by_cases hj : j = d
  · subst hj
    cases hf : form (fieldName w key role j) with
    | none => simp [hf]
    | some value =>
      cases ht : toInt value with
      | none => simp [hf, ht]
      | some n =>
        cases hd : slots[j]? with
        | none => simp [hf, ht, hd]
        | some cell =>
          obtain ⟨hdlt, -⟩ := List.getElem?_eq_some.mp hd
          by_cases hlen : idx < cell.length
          · simp [hf, ht, hd, hlen, List.getElem?_set, hdlt]
          · simp [hf, ht, hd, hlen]
  · cases hf : form (fieldName w key role d) with
    | none => simp [hf, hj]
    | some value =>
      cases ht : toInt value with
      | none => simp [hf, ht, hj]
      | some n =>
        cases hd : slots[d]? with
        | none => simp [hf, ht, hd, hj]
        | some cell =>
          by_cases hlen : idx < cell.length
          · simp [hf, ht, hd, hj, hlen, List.getElem?_set, Ne.symm hj]
          · simp [hf, ht, hd, hj, hlen]

lemma dayUpdate_getElem (toInt : String → Option Int) (form : String → Option String)
    (w : Nat) (key : String) (d : Nat) (slots : List (List Int)) (j : Nat) :
    (dayUpdate toInt form w key d slots)[j]? =
      if j = d then (slots[d]?).map (dayApply toInt form w key d)
      else slots[j]? := by
  unfold dayUpdate
  simp only [tryField_getElem]
  by_cases hj : j = d
  · subst hj
    simp [Option.map_map]
    rfl
  · simp [hj]

lemma updateSlots_getElem (toInt : String → Option Int) (form : String → Option String)
    (w : Nat) (key : String) (slots : List (List Int)) (j : Nat) :
    (updateSlots toInt form w key slots)[j]? =
      if j < NUM_DAYS then (slots[j]?).map (dayApply toInt form w key j)
      else slots[j]? := by
  have e : updateSlots toInt form w key slots =
      dayUpdate toInt form w key 4 (dayUpdate toInt form w key 3
        (dayUpdate toInt form w key 2 (dayUpdate toInt form w key 1
          (dayUpdate toInt form w key 0 slots)))) := rfl
  rw [e]
  simp only [dayUpdate_getElem]
  rcases j with _ | _ | _ | _ | _ | j
  · simp [NUM_DAYS, DAYS]
  · simp [NUM_DAYS, DAYS]
  · simp [NUM_DAYS, DAYS]
  · simp [NUM_DAYS, DAYS]
  · simp [NUM_DAYS, DAYS]
  · have h5 : ¬ (j + 1 + 1 + 1 + 1 + 1 < NUM_DAYS) := by
      show ¬ (j + 1 + 1 + 1 + 1 + 1 < 5)
      omega
    rw [if_neg h5]
    have e4 : j + 1 + 1 + 1 + 1 + 1 ≠ 4 := by omega
    have e3 : j + 1 + 1 + 1 + 1 + 1 ≠ 3 := by omega
    have e2 : j + 1 + 1 + 1 + 1 + 1 ≠ 2 := by omega
    have e1 : j + 1 + 1 + 1 + 1 + 1 ≠ 1 := by omega
    have e0 : j + 1 + 1 + 1 + 1 + 1 ≠ 0 := by omega
    simp [e4, e3, e2, e1, e0]

lemma tryField_length (toInt : String → Option Int) (form : String → Option String)
    (w : Nat) (key role : String) (d idx : Nat) (slots : List (List Int)) :
    (tryField toInt form w key role d idx slots).length = slots.length := by
  unfold tryField
  cases hf : form (fieldName w key role d) with
  | none => rfl
  | some value =>
    cases ht : toInt value with
    | none => simp [hf, ht]
    | some n =>
      cases hd : slots[d]? with
      | none => simp [hf, ht, hd]
      | some cell =>
        by_cases hlen : idx < cell.length <;> simp [hf, ht, hd, hlen]

lemma updateSlots_length (toInt : String → Option Int) (form : String → Option String)
    (w : Nat) (key : String) (slots : List (List Int)) :
    (updateSlots toInt form w key slots).length = slots.length := by
  have e : updateSlots toInt form w key slots =
      dayUpdate toInt form w key 4 (dayUpdate toInt form w key 3
        (dayUpdate toInt form w key 2 (dayUpdate toInt form w key 1
          (dayUpdate toInt form w key 0 slots)))) := rfl
  rw [e]
  simp only [dayUpdate, tryField_length]

lemma postLoop_getElem (toInt : String → Option Int) (form : String → Option String)
    (k : Nat) (store : List AppWeek) (j : Nat) :
    (postLoop toInt form k store)[j]? =
      (store[j]?).map (processWeek toInt form (k + j)) := by
  induction store generalizing k j with
  | nil => simp [postLoop]
  | cons week rest ih =>
    cases j with
    | zero => simp [postLoop]
    | succ j' =>
      simp only [postLoop, List.getElem?_cons_succ]
      rw [show k + (j' + 1) = (k + 1) + j' from by omega]
      exact ih (k + 1) j'

lemma postLoop_length (toInt : String → Option Int) (form : String → Option String)
    (k : Nat) (store : List AppWeek) :
    (postLoop toInt form k store).length = store.length := by
  induction store generalizing k with
  | nil => rfl
  | cons week rest ih => simp [postLoop, ih]

/-- C2: for every form submission and store contents, the POST branch of
`index` triggers exactly one save and maps each week to a week with the
same start date and slot lengths, where every day cell inside the iterated
range gets exactly the per-field parse-or-skip update (`dayApply`: a field
whose value fails integer parsing, or whose guardian index is out of range
of the stored cell, is silently skipped; a present, parseable, in-range
field overwrites exactly its addressed entry) and all other positions are
untouched — so no malformed field aborts the processing of the rest. -/
theorem index_post_characterization (toInt : String → Option Int)
    (form : String → Option String) (store : List AppWeek) :
    (index_post toInt form store).2 = 1 ∧
    (index_post toInt form store).1.length = store.length ∧
    (∀ w, w < store.length →
      ∃ week week', store[w]? = some week ∧
        (index_post toInt form store).1[w]? = some week' ∧
        week'.week_start = week.week_start ∧
        week'.pick_up_1.length = week.pick_up_1.length ∧
        week'.pick_up_2.length = week.pick_up_2.length ∧
        (∀ d, week'.pick_up_1[d]? =
          if d < NUM_DAYS then
            (week.pick_up_1[d]?).map (dayApply toInt form w "pick_up_1" d)
          else week.pick_up_1[d]?) ∧
        (∀ d, week'.pick_up_2[d]? =
          if d < NUM_DAYS then
            (week.pick_up_2[d]?).map (dayApply toInt form w "pick_up_2" d)
          else week.pick_up_2[d]?)) := by
  refine ⟨rfl, postLoop_length toInt form 0 store, ?_⟩
  intro w hw
  have hsome : store[w]? = some store[w] := List.getElem?_eq_getElem hw
  refine ⟨store[w], processWeek toInt form w store[w], hsome, ?_, rfl,
    updateSlots_length _ _ _ _ _, updateSlots_length _ _ _ _ _,
    fun d => updateSlots_getElem _ _ _ _ _ _, fun d => updateSlots_getElem _ _ _ _ _ _⟩
  show (postLoop toInt form 0 store)[w]? = some (processWeek toInt form w store[w])
  rw [postLoop_getElem, hsome]
  simp

lemma foldl_addWeekRows (ws : List SchedWeek) (rows : List (List String))
    (h : rows ≠ []) :
    ws.foldl addWeekRows rows = rows ++ (ws.map weekChunk).flatten := by
  induction ws generalizing rows with
  | nil => simp
  | cons w rest ih =>
    rw [List.foldl_cons]
    have h2 : addWeekRows rows w = rows ++ weekChunk w := by
      unfold addWeekRows weekChunk
      rw [if_pos (List.length_pos.mpr h)]
      simp
    rw [h2, ih _ (by simp [weekChunk])]
    simp [weekChunk]

lemma text_rows_closed (w : SchedWeek) (ws : List SchedWeek) :
    (create_schedule_table_text (w :: ws)).rows =
      [weekHeaderRow w, amRow w, pmRow w] ++ (ws.map weekChunk).flatten := by
  show (w :: ws).foldl addWeekRows [] = _
  rw [List.foldl_cons]
  have h0 : addWeekRows [] w = [weekHeaderRow w, amRow w, pmRow w] := by
    unfold addWeekRows
    simp
  rw [h0, foldl_addWeekRows _ _ (by simp)]

lemma flatten_chunk_getElem (ws : List SchedWeek) (k j : Nat) (hj : j < 4) :
    ((ws.map weekChunk).flatten)[4 * k + j]? =
      (ws[k]?).bind (fun w => (weekChunk w)[j]?) := by
  induction ws generalizing k with
  | nil => simp
  | cons w rest ih =>
    rw [List.map_cons, List.flatten_cons]
    cases k with
    | zero =>
      rw [show 4 * 0 + j = j from by omega]
      rw [List.getElem?_append_left (by simp [weekChunk]; omega)]
      simp
    | succ k' =>
      rw [List.getElem?_append_right (by simp [weekChunk]; omega)]
      have harith : 4 * (k' + 1) + j - ([dividerRow, weekHeaderRow w, amRow w, pmRow w] :
          List (List String)).length = 4 * k' + j := by
        simp
        omega
      rw [show weekChunk w = [dividerRow, weekHeaderRow w, amRow w, pmRow w] from rfl,
        harith, ih k']
      simp

lemma flatten_chunk_length (ws : List SchedWeek) :
    ((ws.map weekChunk).flatten).length = 4 * ws.length := by
  induction ws with
  | nil => rfl
  | cons w rest ih =>
    rw [List.map_cons, List.flatten_cons]
    simp [weekChunk, ih]
    omega

/-- C7: the text renderer emits, per week in store order with no sorting,
filtering or aggregation, a caption row (week label then the five weekday
labels) at row `4k`, a `"Pick AM"` row carrying the text glyphs of
`pick_up_1` at row `4k+1`, and a `"Pick PM"` row carrying the glyphs of
`pick_up_2` at row `4k+2` (rows `4k+3` are the cosmetic dividers), the
label column first in every row; the total row count is `4n - 1`. -/
theorem create_schedule_table_text_rows (store : List SchedWeek) (k : Nat)
    (hk : k < store.length) :
    (create_schedule_table_text store).field_names = "Week / Pick Up" :: DAYS ∧
    (create_schedule_table_text store).rows.length = 4 * store.length - 1 ∧
    ∃ w, store[k]? = some w ∧
      (create_schedule_table_text store).rows[4 * k]? = some (weekHeaderRow w) ∧
      (create_schedule_table_text store).rows[4 * k + 1]? = some (amRow w) ∧
      (create_schedule_table_text store).rows[4 * k + 2]? = some (pmRow w) ∧
      weekHeaderRow w = Date.weekLabel w.week_start :: get_week_dates w.week_start ∧
      amRow w = "Pick AM" :: w.pick_up_1.map (symbolFor "text") ∧
      pmRow w = "Pick PM" :: w.pick_up_2.map (symbolFor "text") := by
  cases store with
  | nil => exact absurd hk (by simp)
  | cons w0 ws =>
    refine ⟨rfl, ?_, ?_⟩
    · rw [text_rows_closed, List.length_append, flatten_chunk_length]
      simp only [List.length_cons, List.length_nil]
      omega
    · cases k with
      | zero =>
        refine ⟨w0, by simp, ?_, ?_, ?_, rfl, ?_, ?_⟩
        · rw [text_rows_closed]
          simp
        · rw [text_rows_closed]
          simp
        · rw [text_rows_closed]
          simp
        · unfold amRow; rw [convertLoop_eq]
        · unfold pmRow; rw [convertLoop_eq]
      | succ k' =>
        have hk' : k' < ws.length := by
          simp at hk
          omega
        refine ⟨ws[k'], by simp [List.getElem?_eq_getElem hk'], ?_, ?_, ?_, rfl, ?_, ?_⟩
        · rw [text_rows_closed,
            show 4 * (k' + 1) = ((4 * k' + 1) + 1) + 1 + 1 from by omega]
          simp only [List.cons_append, List.getElem?_cons_succ, List.nil_append]
          rw [flatten_chunk_getElem ws k' 1 (by omega), List.getElem?_eq_getElem hk']
          rfl
        · rw [text_rows_closed,
            show 4 * (k' + 1) + 1 = ((4 * k' + 2) + 1) + 1 + 1 from by omega]
          simp only [List.cons_append, List.getElem?_cons_succ, List.nil_append]
          rw [flatten_chunk_getElem ws k' 2 (by omega), List.getElem?_eq_getElem hk']
          rfl
        · rw [text_rows_closed,
            show 4 * (k' + 1) + 2 = ((4 * k' + 3) + 1) + 1 + 1 from by omega]
          simp only [List.cons_append, List.getElem?_cons_succ, List.nil_append]
          rw [flatten_chunk_getElem ws k' 3 (by omega), List.getElem?_eq_getElem hk']
          rfl
        · unfold amRow; rw [convertLoop_eq]
        · unfold pmRow; rw [convertLoop_eq]

/-- C7 witness: the second week of the module's own schedule data. -/
theorem create_schedule_table_text_rows_witness :
    (1 : Nat) < SCHEDULE_DATA.length ∧
    ((create_schedule_table_text SCHEDULE_DATA).field_names = "Week / Pick Up" :: DAYS ∧
      (create_schedule_table_text SCHEDULE_DATA).rows.length = 4 * SCHEDULE_DATA.length - 1 ∧
      ∃ w, SCHEDULE_DATA[1]? = some w ∧
        (create_schedule_table_text SCHEDULE_DATA).rows[4 * 1]? = some (weekHeaderRow w) ∧
        (create_schedule_table_text SCHEDULE_DATA).rows[4 * 1 + 1]? = some (amRow w) ∧
        (create_schedule_table_text SCHEDULE_DATA).rows[4 * 1 + 2]? = some (pmRow w) ∧
        weekHeaderRow w = Date.weekLabel w.week_start :: get_week_dates w.week_start ∧
        amRow w = "Pick AM" :: w.pick_up_1.map (symbolFor "text") ∧
        pmRow w = "Pick PM" :: w.pick_up_2.map (symbolFor "text")) :=
  ⟨by decide, create_schedule_table_text_rows SCHEDULE_DATA 1 (by decide)⟩
